import Mathlib

/-!
Shallow embedding of `src/app.py` (Roblox trade-ad helper, Flask app).

JSON-decoded dynamic values are modelled by `JVal`; absent dictionary keys by
`Option`.  External HTTP calls and the Redis cache are modelled by passing
their outcomes in as explicit parameters, in the order the source consults
them.  Each definition mirrors one source function and keeps its name.
-/

/-- A JSON scalar as Python sees it after `response.json()`: the source only
inspects strings and integers of the payloads the claims touch. -/
inductive JVal where
  | str (s : String)
  | num (n : Int)
  deriving DecidableEq, Repr

/-- Python `str(x)` on an optional JSON scalar: `str(None) = "None"`,
`str(7) = "7"`, `str("s") = "s"`.  Used for `str(item.get("assetId"))`
(app.py line 120) and the f-string key `f"user_cookie:{user_id}"` (line 179). -/
def pyStr : Option JVal → String
  | none => "None"
  | some (JVal.str s) => s
  | some (JVal.num n) => toString n

/-- Outcome of one `requests` call wrapped in `raise_for_status()`:
either a decoded 2xx response or a raised `RequestException`
(transport failure or non-2xx status). -/
inductive HttpResult (α : Type) where
  | ok (resp : α)
  | exn (msg : String)
  deriving DecidableEq, Repr

/-! ## Paginated inventory fetcher: `get_user_limiteds` (app.py lines 53-71) -/

/-- One decoded page of the Roblox collectibles listing: the `"data"` key
(absent or a list of items) and the `"nextPageCursor"` key (absent or a
string). -/
structure InvPage (α : Type) where
  dat : Option (List α)
  nextPageCursor : Option String
  deriving DecidableEq, Repr

/-- Python falsiness of the cursor at line 66: `if not next_page_cursor`
holds when `data.get("nextPageCursor")` is `None` or the empty string. -/
def cursorDone : Option String → Bool
  | none => true
  | some s => s = ""

/-- Line 63-64: `if "data" in data and data["data"]: all_items.extend(data["data"])`. -/
def extendItems (acc : List α) (dat : Option (List α)) : List α :=
  match dat with
  | some l => if l.isEmpty then acc else acc ++ l
  | none => acc

/-- The `while True` loop of `get_user_limiteds`, consuming the stream of
upstream responses one per iteration.  An exhausted stream stands for an
upstream that never answers the pending request, which surfaces as the same
raised `RequestException` as any transport failure. -/
def fetchLoop (acc : List α) : List (HttpResult (InvPage α)) → Option (List α) × String
  | [] => (none, "A network error occurred: no response")
  | HttpResult.exn e :: _ => (none, "A network error occurred: " ++ e)
  | HttpResult.ok p :: rest =>
    let acc := extendItems acc p.dat
    if cursorDone p.nextPageCursor then
      (some acc, "Successfully fetched " ++ toString acc.length ++ " items.")
    else
      fetchLoop acc rest

/-- The function `get_user_limiteds(user_id)` (app.py lines 53-71), as a function of the
sequence of page responses the inventory API yields for the successive
cursors the loop requests. -/
def get_user_limiteds (pages : List (HttpResult (InvPage α))) : Option (List α) × String :=
  fetchLoop [] pages

/-- Items a page contributes to the accumulated list. -/
def pageItems (p : InvPage α) : List α := p.dat.getD []

/-! ## Catalog cache: `get_all_limiteds_from_rolimons` (app.py lines 73-98) -/

/-- Decoded body of the Rolimons item-details endpoint: the `"success"` flag
and the `"items"` mapping from item-id key (a JSON object key, hence a
string) to the detail array `[name, acronym, rap, value, ...]`. -/
structure RoliResp where
  success : Bool
  items : Option (List (String × List JVal))
  deriving DecidableEq, Repr

/-- One element of the list built by the comprehension at app.py line 89:
`{"id": item_id, "name": details[0], "rap": details[2], "value": details[3]}`.
The `id` field holds the mapping key unchanged — a string, not an integer. -/
structure CatalogEntryJ where
  id : JVal
  name : JVal
  rap : JVal
  value : JVal
  deriving DecidableEq, Repr

/-- Indexing `details[i]` of the comprehension.  The source raises an uncaught
`IndexError` when a detail array has fewer than four elements; such origin
responses are outside this model, so the default is never reached on the
inputs considered. -/
def detailAt (details : List JVal) (i : Nat) : JVal :=
  details.getD i (JVal.str "")

/-- The comprehension at app.py line 89 over `data["items"].items()`. -/
def entriesOf (m : List (String × List JVal)) : List CatalogEntryJ :=
  m.map fun p =>
    { id := JVal.str p.1, name := detailAt p.2 0, rap := detailAt p.2 2, value := detailAt p.2 3 }

/-- Outcome of `redis_client.get`: a cached (deserialized) value, a miss
(`None`), or a raised `RedisError`.  JSON round-tripping through the cache is
the identity on the stored list, so the hit carries the value directly. -/
inductive RGet (α : Type) where
  | hit (v : α)
  | miss
  | err (msg : String)
  deriving DecidableEq, Repr

/-- The origin branch of `get_all_limiteds_from_rolimons` (app.py lines
83-98), reached on both a cache miss and a caught `RedisError`.  `writeOk`
is the outcome of the `redis_client.setex` write-back at line 91: the source
catches a failure, prints it and continues, so the result never depends on
it. -/
def rolimonsOriginFetch (origin : HttpResult RoliResp) (writeOk : Bool) :
    Option (List CatalogEntryJ) × String :=
  match origin with
  | HttpResult.exn e => (none, "An error occurred while fetching from Rolimon's API: " ++ e)
  | HttpResult.ok resp =>
    match resp.items with
    | some m =>
      if resp.success then
        let all_items := entriesOf m
        (some all_items, "Fetched " ++ toString all_items.length ++ " items from Rolimon's.")
      else (none, "Failed to parse response from Rolimon's API.")
    | none => (none, "Failed to parse response from Rolimon's API.")

/-- The function `get_all_limiteds_from_rolimons()` (app.py lines 73-98) as a function of
the cache-read outcome, the origin response and the cache-write outcome. -/
def get_all_limiteds_from_rolimons (cacheGet : RGet (List CatalogEntryJ))
    (origin : HttpResult RoliResp) (writeOk : Bool) :
    Option (List CatalogEntryJ) × String :=
  match cacheGet with
  | RGet.hit v => (some v, "Fetched from cache.")
  | RGet.miss => rolimonsOriginFetch origin writeOk
  | RGet.err _ => rolimonsOriginFetch origin writeOk

/-! ## Inventory enrichment (app.py lines 117-124, body of `get_inventory_api`) -/

/-- An owned collectible item as a JSON object; the fields the source reads
or writes.  `rap` and `value` are absent until enrichment assigns them. -/
structure InvItem where
  assetId : Option JVal
  name : Option JVal
  recentAveragePrice : Option JVal
  rap : Option JVal
  value : Option JVal
  deriving DecidableEq, Repr

/-- Lookup in the dict comprehension `{item["id"]: item for item in
rolimons_items}` (line 118): with duplicate ids the later binding wins. -/
def dictGet (catalog : List CatalogEntryJ) (k : JVal) : Option CatalogEntryJ :=
  (catalog.filter fun e => e.id = k).getLast?

/-- The loop body at app.py lines 119-123 for one item: sets
`item["rap"] = item.get("recentAveragePrice", -1)` and
`item["value"] = rolimons_data.get("value", -1) if rolimons_data else -1`,
where `rolimons_data = rolimons_map.get(str(item.get("assetId")))`.
A matched catalog entry always carries a `"value"` key, so its `.get`
default is never used. -/
def enrichItem (catalog : List CatalogEntryJ) (it : InvItem) : InvItem :=
  let rolimons_data := dictGet catalog (JVal.str (pyStr it.assetId))
  { it with
    rap := some (it.recentAveragePrice.getD (JVal.num (-1))),
    value := some (match rolimons_data with
      | some e => e.value
      | none => JVal.num (-1)) }

/-- The `for item in inventory` loop at lines 119-123 over the whole list. -/
def enrich (catalog : List CatalogEntryJ) (items : List InvItem) : List InvItem :=
  items.map (enrichItem catalog)

/-- Sort key of line 124: `item.get("name", "")`.  A non-string `name` would
raise an uncaught `TypeError` when compared against a string in the source;
such payloads are outside this model. -/
def nameKey (it : InvItem) : String :=
  match it.name with
  | some (JVal.str s) => s
  | _ => ""

/-- The call `sorted(inventory, key=lambda item: item.get("name", ""))` (line 124):
a stable sort on the name key. -/
def sortByName (items : List InvItem) : List InvItem :=
  items.insertionSort fun a b => nameKey a ≤ nameKey b

/-! ## Request pipeline: `get_inventory_api` (app.py lines 107-125) -/

/-- Line 111: `if not user_id` — falsy when the resolver returned `None`
or the (unlikely) id `0`. -/
def pyTruthyId : Option Int → Bool
  | none => false
  | some n => n != 0

/-- The JSON-level shape of the route's response: HTTP status, the
`"success"` flag, and the `"data"` list when present. -/
structure ApiResult where
  status : Nat
  success : Bool
  dat : Option (List InvItem)
  deriving DecidableEq, Repr

/-- Which later stages the handler actually invoked, and whether the
enrichment loop ran. -/
structure ApiTrace where
  fetcherCalled : Bool
  catalogCalled : Bool
  enrichRan : Bool
  deriving DecidableEq, Repr

/-- The route handler `get_inventory_api(username)` (app.py lines 107-125) as a function of the
outcomes of its three upstream stages, in source order: `get_user_id`, then
`get_user_limiteds`, then `get_all_limiteds_from_rolimons`.  Enrichment runs
only under `if rolimons_items:` (line 117), which is falsy for `None` and for
an empty list; in both of those cases the handler still returns the sorted,
un-enriched inventory with `success: True`. -/
def get_inventory_api (uid : Option Int × String)
    (inv : Option (List InvItem) × String)
    (cat : Option (List CatalogEntryJ) × String) : ApiResult × ApiTrace :=
  if pyTruthyId uid.1 = false then
    ({ status := 404, success := false, dat := none },
     { fetcherCalled := false, catalogCalled := false, enrichRan := false })
  else
    match inv.1 with
    | none =>
      ({ status := 500, success := false, dat := none },
       { fetcherCalled := true, catalogCalled := false, enrichRan := false })
    | some inventory =>
      let rolimons_items := cat.1
      let doEnrich : Bool := match rolimons_items with
        | some cs => !cs.isEmpty
        | none => false
      let enriched := match rolimons_items with
        | some cs => if cs.isEmpty then inventory else enrich cs inventory
        | none => inventory
      ({ status := 200, success := true, dat := some (sortByName enriched) },
       { fetcherCalled := true, catalogCalled := true, enrichRan := doEnrich })

/-! ## Verification session manager: `verify_phrase` (app.py lines 150-169) -/

/-- Decoded verify-phrase origin response: the optional `_RoliVerification`
session cookie, the JSON body and the HTTP status. -/
structure VerifyResp where
  roliCookie : Option String
  body : JVal
  status : Nat
  deriving DecidableEq, Repr

/-- The credential store: Redis keys of the form `user_cookie:<id>` mapped to
the stored cookie string. -/
def CredStore := List (String × String)

/-- The write `redis_client.setex(key, ttl, value)`: at most one live value per key,
a new write silently overwrites the old. -/
def setex (store : CredStore) (k v : String) : CredStore :=
  (k, v) :: store.filter fun p => p.1 ≠ k

/-- The read `redis_client.get(key)` against the modelled store. -/
def rget (store : CredStore) (k : String) : Option String :=
  (store.find? fun p => p.1 = k).map Prod.snd

/-- Observable outcome of the `verify_phrase` route. -/
inductive VerifyOutcome where
  | verified (body : JVal) (status : Nat)
  | verificationFailed
  | upstreamErr (msg : String)
  deriving DecidableEq, Repr

/-- The route handler `verify_phrase(user_id)` (app.py lines 150-169): on a raised request
exception returns the 500 error JSON; on a 2xx response without a (non-empty)
`_RoliVerification` cookie returns the 400 failure JSON and writes nothing;
otherwise stores the cookie under `user_cookie:<user_id>` with a 24h TTL and
forwards the origin body and status.  (`if not roli_verification_cookie` is
falsy for `None` and for an empty string.)  A `RedisError` raised by the
store write would propagate uncaught; the store is assumed writable here. -/
def verify_phrase (store : CredStore) (uid : Int) (origin : HttpResult VerifyResp) :
    VerifyOutcome × CredStore :=
  match origin with
  | HttpResult.exn e => (VerifyOutcome.upstreamErr e, store)
  | HttpResult.ok r =>
    match r.roliCookie with
    | none => (VerifyOutcome.verificationFailed, store)
    | some c =>
      if c = "" then (VerifyOutcome.verificationFailed, store)
      else (VerifyOutcome.verified r.body r.status,
            setex store ("user_cookie:" ++ toString uid) c)

/-! ## Ad publisher: `post_trade_ad` (app.py lines 171-199) -/

/-- The JSON request body as the handler reads it: every field through
`data.get`, so each may be absent. -/
structure AdBody where
  player_id : Option JVal
  offer_item_ids : Option (List Int)
  request_item_ids : Option (List Int)
  request_tags : Option (List String)
  deriving DecidableEq, Repr

/-- The payload built at app.py lines 185-190 and sent to the origin. -/
structure AdPayload where
  player_id : Option JVal
  offer_item_ids : List Int
  request_item_ids : List Int
  request_tags : List String
  deriving DecidableEq, Repr

/-- Decoded ad-posting origin response. -/
structure AdResp where
  body : JVal
  status : Nat
  deriving DecidableEq, Repr

/-- Observable outcome of the `post_trade_ad` route. -/
inductive AdOutcome where
  | posted (body : JVal) (status : Nat) (payload : AdPayload)
  | unauthenticated
  | redisErr (msg : String)
  | originErr (msg : String)
  deriving DecidableEq, Repr

/-- The route handler `post_trade_ad()` (app.py lines 171-199) as a function of the credential
store, the Redis-lookup failure (`some msg` when `redis_client.get` raised),
the request body and the origin outcome.  Returns the route outcome paired
with whether the origin ad-posting request was issued.  The lookup key is
`f"user_cookie:{user_id}"` with `user_id = data.get("player_id")`, and
`if not user_cookie` is falsy for a missing key and for an empty string. -/
def post_trade_ad (store : CredStore) (redisFail : Option String) (body : AdBody)
    (origin : HttpResult AdResp) : AdOutcome × Bool :=
  let user_id := body.player_id
  match redisFail with
  | some e => (AdOutcome.redisErr e, false)
  | none =>
    match rget store ("user_cookie:" ++ pyStr user_id) with
    | none => (AdOutcome.unauthenticated, false)
    | some user_cookie =>
      if user_cookie = "" then (AdOutcome.unauthenticated, false)
      else
        let payload : AdPayload :=
          { player_id := user_id,
            offer_item_ids := body.offer_item_ids.getD [],
            request_item_ids := body.request_item_ids.getD [],
            request_tags := body.request_tags.getD [] }
        match origin with
        | HttpResult.exn e => (AdOutcome.originErr e, true)
        | HttpResult.ok r => (AdOutcome.posted r.body r.status payload, true)

/-! ## Theorems -/

theorem extendItems_eq (acc : List α) (dat : Option (List α)) :
    extendItems acc dat = acc ++ dat.getD [] := by
  cases dat with
  | none => simp [extendItems]
  | some l =>
    cases l with
    | nil => simp [extendItems]
    | cons x xs => simp [extendItems]

theorem fetchLoop_cons_ok (acc : List α) (p : InvPage α)
    (rest : List (HttpResult (InvPage α))) :
    fetchLoop acc (HttpResult.ok p :: rest) =
      if cursorDone p.nextPageCursor then
        (some (extendItems acc p.dat),
         "Successfully fetched " ++ toString (extendItems acc p.dat).length ++ " items.")
      else fetchLoop (extendItems acc p.dat) rest := rfl

theorem fetchLoop_ok_concat (pages : List (InvPage α)) (acc : List α)
    (hmid : ∀ p ∈ pages.dropLast, cursorDone p.nextPageCursor = false)
    (hlast : ∀ q, pages.getLast? = some q → cursorDone q.nextPageCursor = true)
    (hne : pages ≠ []) :
    fetchLoop acc (pages.map HttpResult.ok) =
      (some (acc ++ (pages.map pageItems).flatten),
       "Successfully fetched " ++ toString (acc ++ (pages.map pageItems).flatten).length
         ++ " items.") := by
  induction pages generalizing acc with
  | nil => exact absurd rfl hne
  | cons p rest ih =>
    cases rest with
    | nil =>
      have hdone : cursorDone p.nextPageCursor = true := hlast p rfl
      simp [fetchLoop, hdone, extendItems_eq, pageItems]
    | cons q rest2 =>
      have hnd : cursorDone p.nextPageCursor = false := by
        apply hmid
        simp [List.dropLast]
      have hrec := ih (extendItems acc p.dat)
        (fun r hr => hmid r (by simp [List.dropLast]; right; simpa [List.dropLast] using hr))
        (fun r hr => hlast r (by simpa [List.getLast?] using hr))
        (by simp)
      rw [List.map_cons, fetchLoop_cons_ok, if_neg (by simp [hnd]), hrec]
      simp [extendItems_eq, pageItems, List.append_assoc]

theorem fetchLoop_err (pre : List (InvPage α)) (e : String)
    (rest : List (HttpResult (InvPage α))) (acc : List α)
    (hpre : ∀ p ∈ pre, cursorDone p.nextPageCursor = false) :
    fetchLoop acc (pre.map HttpResult.ok ++ HttpResult.exn e :: rest) =
      (none, "A network error occurred: " ++ e) := by
  induction pre generalizing acc with
  | nil => rfl
  | cons p ps ih =>
    have hnd : cursorDone p.nextPageCursor = false := hpre p (by simp)
    rw [List.map_cons, List.cons_append, fetchLoop_cons_ok, if_neg (by simp [hnd])]
    exact ih _ (fun q hq => hpre q (by simp [hq]))

/-- C1: for an inventory split across any number of successful pages, where
every page before the last carries a continuation cursor and the last page's
cursor is empty or absent, `get_user_limiteds` returns exactly the
concatenation of all pages' item lists in order, and the loop runs over all
the pages, stopping at the first empty/absent cursor. -/
theorem C1_fetch_all_concatenation (pages : List (InvPage α))
    (hmid : ∀ p ∈ pages.dropLast, cursorDone p.nextPageCursor = false)
    (hlast : ∀ q, pages.getLast? = some q → cursorDone q.nextPageCursor = true)
    (hne : pages ≠ []) :
    get_user_limiteds (pages.map HttpResult.ok) =
      (some (pages.map pageItems).flatten,
       "Successfully fetched " ++ toString (pages.map pageItems).flatten.length ++ " items.") := by
  have h := fetchLoop_ok_concat pages [] hmid hlast hne
  simpa [get_user_limiteds] using h

def c1Pages : List (InvPage Nat) :=
  [{ dat := some [1, 2], nextPageCursor := some "cursorB" },
   { dat := some [3], nextPageCursor := some "" }]

/-- C1 witness: a concrete two-page inventory with 2 + 1 items yields the
three items in order. -/
theorem C1_fetch_all_concatenation_witness :
    get_user_limiteds (c1Pages.map HttpResult.ok) =
      (some [1, 2, 3], "Successfully fetched 3 items.") := by
  rw [C1_fetch_all_concatenation c1Pages (by decide) (by decide) (by decide)]
  rfl

/-- C3: a transport or non-2xx failure at any page — after any run of
successful non-terminal pages — makes `get_user_limiteds` return no item
sequence at all, only the network-error message: the items accumulated from
the earlier pages are discarded. -/
theorem C3_failure_discards_partial (pre : List (InvPage α)) (e : String)
    (rest : List (HttpResult (InvPage α)))
    (hpre : ∀ p ∈ pre, cursorDone p.nextPageCursor = false) :
    get_user_limiteds (pre.map HttpResult.ok ++ HttpResult.exn e :: rest) =
      (none, "A network error occurred: " ++ e) :=
  fetchLoop_err pre e rest [] hpre

/-- C3 witness: one successful page of two items followed by a failing page
yields no items. -/
theorem C3_failure_discards_partial_witness :
    get_user_limiteds
        (([{ dat := some [1, 2], nextPageCursor := some "cursorB" }] :
            List (InvPage Nat)).map HttpResult.ok ++ HttpResult.exn "boom" :: []) =
      (none, "A network error occurred: boom") :=
  C3_failure_discards_partial _ "boom" [] (by decide)

theorem enrichItem_idem (catalog : List CatalogEntryJ) (it : InvItem) :
    enrichItem catalog (enrichItem catalog it) = enrichItem catalog it := by
  cases h : dictGet catalog (JVal.str (pyStr it.assetId)) <;>
    simp [enrichItem, h]

/-- C7: enrichment is idempotent — re-running the enrichment loop on an
already-enriched item list against the same catalog yields the very same
items (in particular identical `rap` and `value` fields), because the loop
only reads `assetId` and `recentAveragePrice`, which it never writes. -/
theorem C7_enrich_idempotent (catalog : List CatalogEntryJ) (items : List InvItem) :
    enrich catalog (enrich catalog items) = enrich catalog items := by
  simp only [enrich, List.map_map]
  exact List.map_congr_left fun it _ => enrichItem_idem catalog it

/-- C6: an item whose (stringified) asset id matches no catalog entry gets
`value = -1`; and every item's `rap` is set to its own
`recentAveragePrice`, with `-1` when that field is absent. -/
theorem C6_no_match_value_sentinel (catalog : List CatalogEntryJ) (it : InvItem)
    (hno : ∀ e ∈ catalog, e.id ≠ JVal.str (pyStr it.assetId)) :
    (enrichItem catalog it).value = some (JVal.num (-1))
    ∧ ∀ it2 : InvItem,
        (enrichItem catalog it2).rap = some (it2.recentAveragePrice.getD (JVal.num (-1))) := by
  constructor
  · have hfil : catalog.filter (fun e => e.id = JVal.str (pyStr it.assetId)) = [] := by
      rw [List.filter_eq_nil_iff]
      intro e he
      simpa using hno e he
    have hd : dictGet catalog (JVal.str (pyStr it.assetId)) = none := by
      simp [dictGet, hfil]
    simp [enrichItem, hd]
  · intro it2
    cases h : dictGet catalog (JVal.str (pyStr it2.assetId)) <;> simp [enrichItem, h]

def c6Catalog : List CatalogEntryJ :=
  [{ id := JVal.str "5", name := JVal.str "A", rap := JVal.num 1, value := JVal.num 2 }]

def c6Item : InvItem :=
  { assetId := some (JVal.num 7), name := some (JVal.str "B"),
    recentAveragePrice := some (JVal.num 55), rap := none, value := none }

/-- C6 witness: asset id 7 is absent from a catalog that only knows id "5",
so the enriched item carries `value = -1` and `rap = 55`. -/
theorem C6_no_match_value_sentinel_witness :
    (enrichItem c6Catalog c6Item).value = some (JVal.num (-1))
    ∧ (enrichItem c6Catalog c6Item).rap = some (JVal.num 55) :=
  ⟨(C6_no_match_value_sentinel c6Catalog c6Item (by decide)).1,
   (C6_no_match_value_sentinel c6Catalog c6Item (by decide)).2 c6Item⟩

/-- C5: (i) a cache-read failure (raised `RedisError`) yields exactly the
same result as a cache miss — the origin is consulted; (ii) the outcome of
the cache write-back never affects the result; (iii) on a miss with a
successful, well-formed origin response the freshly fetched entries are
returned, whatever the write-back did. -/
theorem C5_cache_failures_absorbed (e : String) (o : HttpResult RoliResp)
    (w w' : Bool) (g : RGet (List CatalogEntryJ)) (resp : RoliResp)
    (m : List (String × List JVal))
    (hs : resp.success = true) (hi : resp.items = some m) :
    get_all_limiteds_from_rolimons (RGet.err e) o w =
        get_all_limiteds_from_rolimons RGet.miss o w
    ∧ get_all_limiteds_from_rolimons g o w = get_all_limiteds_from_rolimons g o w'
    ∧ (get_all_limiteds_from_rolimons RGet.miss (HttpResult.ok resp) w).1 =
        some (entriesOf m) := by
  refine ⟨rfl, ?_, ?_⟩
  · cases g <;> rfl
  · simp [get_all_limiteds_from_rolimons, rolimonsOriginFetch, hi, hs]

def resp7 : RoliResp :=
  { success := true,
    items := some [("7", [JVal.str "Dominus", JVal.str "x", JVal.num 500, JVal.num 10000])] }

/-- C5 witness: with the concrete Dominus origin response, a failed cache
read equals a miss, a failed write-back changes nothing, and the fetched
entry is returned. -/
theorem C5_cache_failures_absorbed_witness :
    get_all_limiteds_from_rolimons (RGet.err "down") (HttpResult.ok resp7) true =
        get_all_limiteds_from_rolimons RGet.miss (HttpResult.ok resp7) true
    ∧ get_all_limiteds_from_rolimons RGet.miss (HttpResult.ok resp7) true =
        get_all_limiteds_from_rolimons RGet.miss (HttpResult.ok resp7) false
    ∧ (get_all_limiteds_from_rolimons RGet.miss (HttpResult.ok resp7) true).1 =
        some (entriesOf [("7", [JVal.str "Dominus", JVal.str "x", JVal.num 500, JVal.num 10000])]) :=
  C5_cache_failures_absorbed "down" (HttpResult.ok resp7) true false RGet.miss resp7
    [("7", [JVal.str "Dominus", JVal.str "x", JVal.num 500, JVal.num 10000])] rfl rfl

/-- C4 counterexample: on the Dominus response the single returned entry has
`id` equal to the string `"7"` — the raw mapping key — which is not the
integer `7` the claim (and the data model) requires. -/
theorem C4_counterexample :
    ((get_all_limiteds_from_rolimons RGet.miss (HttpResult.ok resp7) true).1.getD []).map
        CatalogEntryJ.id = [JVal.str "7"]
    ∧ JVal.str "7" ≠ JVal.num 7 :=
  ⟨rfl, by decide⟩

/-- C4 (amended): on an empty cache with the Dominus origin response,
`get_all_limiteds_from_rolimons` returns exactly one entry
`{id := "7", name := "Dominus", rap := 500, value := 10000}`, whose `id`
is the origin mapping's string key, kept as a string. -/
theorem C4_single_entry_amended :
    get_all_limiteds_from_rolimons RGet.miss (HttpResult.ok resp7) true =
      (some [{ id := JVal.str "7", name := JVal.str "Dominus",
               rap := JVal.num 500, value := JVal.num 10000 }],
       "Fetched 1 items from Rolimon's.") := rfl

def c2Item : InvItem :=
  { assetId := some (JVal.num 1), name := some (JVal.str "A"),
    recentAveragePrice := some (JVal.num 10), rap := none, value := none }

/-- C2 counterexample: with the resolver and the fetcher succeeding but the
catalog stage failing (`get_all_limiteds_from_rolimons` returned `None`),
the handler does not abort — it still answers 200 with `success: True`,
merely skipping enrichment.  Catalog failure therefore does not
short-circuit the pipeline as the claim states. -/
theorem C2_counterexample :
    (get_inventory_api (some 156, "ok") (some [c2Item], "ok") (none, "catalog failed")).1.success
        = true
    ∧ (get_inventory_api (some 156, "ok") (some [c2Item], "ok") (none, "catalog failed")).1.status
        = 200
    ∧ (get_inventory_api (some 156, "ok") (some [c2Item], "ok") (none, "catalog failed")).2.enrichRan
        = false :=
  ⟨rfl, rfl, rfl⟩

/-- C2 (amended): resolver failure aborts the pipeline with a 404 before the
fetcher or the catalog is consulted; fetcher failure aborts it with a 500
before the catalog is consulted; but catalog failure does not abort the
request — enrichment is skipped and the sorted, un-enriched inventory is
returned with `success: True`.  An enriched response is produced only when
all stages succeed (resolver truthy, fetcher returns a list, catalog returns
a non-empty entry list). -/
theorem C2_pipeline_short_circuit_amended :
    (∀ (m : String) (inv : Option (List InvItem) × String)
       (cat : Option (List CatalogEntryJ) × String),
       get_inventory_api (none, m) inv cat =
         ({ status := 404, success := false, dat := none },
          { fetcherCalled := false, catalogCalled := false, enrichRan := false }))
    ∧ (∀ (uid : Option Int × String) (m : String)
         (cat : Option (List CatalogEntryJ) × String),
         pyTruthyId uid.1 = true →
         get_inventory_api uid (none, m) cat =
           ({ status := 500, success := false, dat := none },
            { fetcherCalled := true, catalogCalled := false, enrichRan := false }))
    ∧ (∀ (uid : Option Int × String) (items : List InvItem) (m cmsg : String),
         pyTruthyId uid.1 = true →
         get_inventory_api uid (some items, m) (none, cmsg) =
           ({ status := 200, success := true, dat := some (sortByName items) },
            { fetcherCalled := true, catalogCalled := true, enrichRan := false }))
    ∧ (∀ (uid : Option Int × String) (inv : Option (List InvItem) × String)
         (cat : Option (List CatalogEntryJ) × String),
         (get_inventory_api uid inv cat).2.enrichRan = true →
         pyTruthyId uid.1 = true ∧ (∃ items, inv.1 = some items)
           ∧ ∃ cs, cat.1 = some cs ∧ cs ≠ []) := by
  refine ⟨?_, ?_, ?_, ?_⟩
  · intro m inv cat
    rfl
  · intro uid m cat h
    simp [get_inventory_api, h]
  · intro uid items m cmsg h
    simp [get_inventory_api, h]
  · intro uid inv cat h
    by_cases hu : pyTruthyId uid.1 = true
    · refine ⟨hu, ?_, ?_⟩
      · cases hi : inv.1 with
        | none => rw [get_inventory_api, if_neg (by simp [hu]), hi] at h; simp at h
        | some items => exact ⟨items, rfl⟩
      · cases hi : inv.1 with
        | none => rw [get_inventory_api, if_neg (by simp [hu]), hi] at h; simp at h
        | some items =>
          cases hc : cat.1 with
          | none =>
            rw [get_inventory_api, if_neg (by simp [hu]), hi] at h
            simp [hc] at h
          | some cs =>
            refine ⟨cs, rfl, ?_⟩
            rw [get_inventory_api, if_neg (by simp [hu]), hi] at h
            simp [hc] at h
            intro hnil
            rw [hnil] at h
            simp at h
    · rw [get_inventory_api, if_pos (by simpa using hu)] at h
      simp at h

/-- C2 witness: the amended pipeline facts at concrete inputs — a fetcher
failure after a resolved id gives the 500 abort, a catalog failure after a
successful fetch still gives the 200 un-enriched response, and a run in
which enrichment happened had all stages succeed. -/
theorem C2_pipeline_short_circuit_amended_witness :
    get_inventory_api (some 156, "ok") (none, "net down") (none, "c") =
        ({ status := 500, success := false, dat := none },
         { fetcherCalled := true, catalogCalled := false, enrichRan := false })
    ∧ get_inventory_api (some 156, "ok") (some [c2Item], "ok") (none, "catalog failed") =
        ({ status := 200, success := true, dat := some (sortByName [c2Item]) },
         { fetcherCalled := true, catalogCalled := true, enrichRan := false })
    ∧ (pyTruthyId (some 156) = true
        ∧ (∃ items, (some [c2Item] : Option (List InvItem)) = some items)
        ∧ ∃ cs, (some c6Catalog : Option (List CatalogEntryJ)) = some cs ∧ cs ≠ []) :=
  ⟨C2_pipeline_short_circuit_amended.2.1 (some 156, "ok") "net down" (none, "c") rfl,
   C2_pipeline_short_circuit_amended.2.2.1 (some 156, "ok") [c2Item] "ok" "catalog failed" rfl,
   C2_pipeline_short_circuit_amended.2.2.2 (some 156, "ok") (some [c2Item], "ok")
     (some c6Catalog, "ok") (by decide)⟩

/-- C8: when the verify-phrase origin call succeeds but its response carries
no `_RoliVerification` cookie, `verify_phrase` returns the verification
failure (the handled 400 response, not an uncaught fault) and leaves the
credential store unchanged; a subsequent `post_trade_ad` for the same
account — assuming it had no prior credential — then returns the 401
unauthenticated response without calling the origin. -/
theorem C8_no_cookie_verification_failed (store : CredStore) (uid : Int)
    (r : VerifyResp) (body : AdBody) (o : HttpResult AdResp)
    (hc : r.roliCookie = none)
    (hb : body.player_id = some (JVal.num uid))
    (hnone : rget store ("user_cookie:" ++ toString uid) = none) :
    verify_phrase store uid (HttpResult.ok r) = (VerifyOutcome.verificationFailed, store)
    ∧ post_trade_ad (verify_phrase store uid (HttpResult.ok r)).2 none body o =
        (AdOutcome.unauthenticated, false) := by
  have h1 : verify_phrase store uid (HttpResult.ok r) =
      (VerifyOutcome.verificationFailed, store) := by
    simp [verify_phrase, hc]
  refine ⟨h1, ?_⟩
  rw [h1]
  simp [post_trade_ad, hb, pyStr, hnone]

/-- C8 witness: account 9001, empty store, cookie-less origin response. -/
theorem C8_no_cookie_verification_failed_witness :
    verify_phrase [] 9001 (HttpResult.ok { roliCookie := none, body := JVal.num 0, status := 200 })
        = (VerifyOutcome.verificationFailed, [])
    ∧ post_trade_ad
        (verify_phrase [] 9001
          (HttpResult.ok { roliCookie := none, body := JVal.num 0, status := 200 })).2
        none
        { player_id := some (JVal.num 9001), offer_item_ids := none,
          request_item_ids := none, request_tags := none }
        (HttpResult.exn "unused") =
        (AdOutcome.unauthenticated, false) :=
  C8_no_cookie_verification_failed [] 9001
    { roliCookie := none, body := JVal.num 0, status := 200 }
    { player_id := some (JVal.num 9001), offer_item_ids := none,
      request_item_ids := none, request_tags := none }
    (HttpResult.exn "unused") rfl rfl rfl

/-- C9: with no stored (hence possibly expired) credential under the
account's key, `post_trade_ad` returns the 401 unauthenticated response and
never issues the origin ad-posting request; a raised `RedisError` on the
credential lookup instead yields the distinct 500 Redis-error response —
also without calling the origin. -/
theorem C9_publish_unauthenticated (store : CredStore) (body : AdBody)
    (o : HttpResult AdResp) (e : String)
    (hl : rget store ("user_cookie:" ++ pyStr body.player_id) = none) :
    post_trade_ad store none body o = (AdOutcome.unauthenticated, false)
    ∧ post_trade_ad store (some e) body o = (AdOutcome.redisErr e, false) := by
  constructor
  · simp [post_trade_ad, hl]
  · rfl

/-- C9 witness: empty store, account 42. -/
theorem C9_publish_unauthenticated_witness :
    post_trade_ad []
        none
        { player_id := some (JVal.num 42), offer_item_ids := none,
          request_item_ids := none, request_tags := none }
        (HttpResult.exn "unused") = (AdOutcome.unauthenticated, false)
    ∧ post_trade_ad []
        (some "connection refused")
        { player_id := some (JVal.num 42), offer_item_ids := none,
          request_item_ids := none, request_tags := none }
        (HttpResult.exn "unused") = (AdOutcome.redisErr "connection refused", false) :=
  C9_publish_unauthenticated []
    { player_id := some (JVal.num 42), offer_item_ids := none,
      request_item_ids := none, request_tags := none }
    (HttpResult.exn "unused") "connection refused" rfl

/-- C10: `post_trade_ad` is total over bodies missing any of the optional
fields — when `offer_item_ids`, `request_item_ids` and `request_tags` are
absent they are forwarded to the origin as empty lists, and when
`player_id` is absent the lookup key is `user_cookie:None`, which (finding
no credential) makes the call return the 401 unauthenticated response
rather than fault. -/
theorem C10_publish_total_defaults (store : CredStore) (body : AdBody)
    (o : HttpResult AdResp)
    (h1 : body.offer_item_ids = none) (h2 : body.request_item_ids = none)
    (h3 : body.request_tags = none) :
    (∀ (r : AdResp) (c : String), o = HttpResult.ok r →
       rget store ("user_cookie:" ++ pyStr body.player_id) = some c → c ≠ "" →
       post_trade_ad store none body o =
         (AdOutcome.posted r.body r.status
           { player_id := body.player_id, offer_item_ids := [],
             request_item_ids := [], request_tags := [] }, true))
    ∧ (body.player_id = none → rget store "user_cookie:None" = none →
       post_trade_ad store none body o = (AdOutcome.unauthenticated, false)) := by
  constructor
  · intro r c hr hc hne
    subst hr
    simp [post_trade_ad, hc, hne, h1, h2, h3]
  · intro hp hn
    have hkey : ("user_cookie:" ++ pyStr body.player_id) = "user_cookie:None" := by
      rw [hp]
      rfl
    simp [post_trade_ad, hkey, hn]

/-- C10 witness: a stored credential for account 5 with all list fields
absent posts the ad with empty lists; a body with no `player_id` at all is
answered with the 401 unauthenticated response. -/
theorem C10_publish_total_defaults_witness :
    post_trade_ad [("user_cookie:5", "tok")]
        none
        { player_id := some (JVal.num 5), offer_item_ids := none,
          request_item_ids := none, request_tags := none }
        (HttpResult.ok { body := JVal.num 1, status := 201 }) =
        (AdOutcome.posted (JVal.num 1) 201
          { player_id := some (JVal.num 5), offer_item_ids := [],
            request_item_ids := [], request_tags := [] }, true)
    ∧ post_trade_ad []
        none
        { player_id := none, offer_item_ids := none,
          request_item_ids := none, request_tags := none }
        (HttpResult.exn "unused") = (AdOutcome.unauthenticated, false) :=
  ⟨(C10_publish_total_defaults [("user_cookie:5", "tok")]
      { player_id := some (JVal.num 5), offer_item_ids := none,
        request_item_ids := none, request_tags := none }
      (HttpResult.ok { body := JVal.num 1, status := 201 }) rfl rfl rfl).1
      { body := JVal.num 1, status := 201 } "tok" rfl rfl (by decide),
   (C10_publish_total_defaults []
      { player_id := none, offer_item_ids := none,
        request_item_ids := none, request_tags := none }
      (HttpResult.exn "unused") rfl rfl rfl).2 rfl rfl⟩
